import Mathlib

set_option maxRecDepth 100000

/-
Shallow embedding of the alx-polly server actions layer:
the Auth Policy Module (app/lib/actions/auth-actions.ts) and the
Poll Policy Module (app/lib/actions/poll-actions.ts).

External collaborators (Supabase identity provider and data store,
DOMPurify sanitizer) are modelled as explicit parameters: the data store
is a pure in-memory `Store`, provider/store failures are injected
through `Option`-typed error parameters, and the HTML sanitizer is an
abstract function argument `sanitize : String → String`.
-/

namespace AlxPolly

/-! ## Auth Policy Module: credential format validation -/

/-- Characters matched by the JavaScript regex class `\s`
(whitespace and line separators), restricted to the code points that
can actually occur in the inputs we reason about. -/
def jsSpace (c : Char) : Bool :=
  c == ' ' || c == '\t' || c == '\n' || c == '\r' ||
  c == '\x0b' || c == '\x0c' ||
  c == Char.ofNat 0xa0 || c == Char.ofNat 0x2028 ||
  c == Char.ofNat 0x2029 || c == Char.ofNat 0xfeff

/-- A character admitted by the regex class `[^\s@]` used for both the
local part and the domain part of the email regex. -/
def emailAtomChar (c : Char) : Bool :=
  !(jsSpace c) && !(c == '@')

/-- Embedding of `isValidEmail` from auth-actions.ts: the regex
`^[^\s@]+@[^\s@]+\.[^\s@]+$`.  A string matches exactly when it splits
as `local@domain` with both sides non-empty, free of whitespace and
further `@` signs, and the domain contains a dot that is neither its
first nor its last character (so that both `[^\s@]+` around `\.` are
non-empty). -/
def isValidEmail (email : String) : Bool :=
  match email.toList.splitOn '@' with
  | [lp, domain] =>
      !lp.isEmpty && lp.all emailAtomChar &&
      !domain.isEmpty && domain.all emailAtomChar &&
      ((domain.drop 1).dropLast.contains '.')
  | _ => false

/-- JavaScript line terminators, which the regex metacharacter `.`
does not match. -/
def jsLineTerminator (c : Char) : Bool :=
  c == '\n' || c == '\r' || c == Char.ofNat 0x2028 || c == Char.ofNat 0x2029

/-- The fixed punctuation set of the password strength regex in
auth-actions.ts. -/
def passwordSpecialChars : List Char :=
  ['!', '@', '#', '$', '%', '^', '&', '*', '(', ')', '_', '+', '=',
   '{', '}', '[', ']', ':', ';', '"', '\'', '<', '>', ',', '.', '?',
   '/', '~', Char.ofNat 0x60]

/-- Embedding of `isStrongPassword` from auth-actions.ts: the regex
`^(?=.*[a-z])(?=.*[A-Z])(?=.*\d)(?=.*[SPECIAL]).{8,}$`.  The anchored
body `.{8,}$` forces at least 8 characters none of which is a line
terminator, and the four look-aheads each require a witness character
of the corresponding class. -/
def isStrongPassword (password : String) : Bool :=
  let cs := password.toList
  decide (8 ≤ cs.length) &&
  cs.all (fun c => !(jsLineTerminator c)) &&
  cs.any (fun c => decide ('a' ≤ c) && decide (c ≤ 'z')) &&
  cs.any (fun c => decide ('A' ≤ c) && decide (c ≤ 'Z')) &&
  cs.any (fun c => decide ('0' ≤ c) && decide (c ≤ '9')) &&
  cs.any (fun c => passwordSpecialChars.contains c)

/-! ## Auth Policy Module: actions

Each action returns the `error` field of its `{ error }` result object.
The identity provider's reported outcome is passed in as
`providerError : Option String` (`none` = provider succeeded); a result
that does not depend on this argument was computed without consulting
the provider. -/

/-- Embedding of `login` from auth-actions.ts. -/
def login (providerError : Option String) (email password : String) :
    Option String :=
  if !(isValidEmail email) || !(isStrongPassword password) then
    some "Invalid credentials."
  else
    match providerError with
    | some _ => some "Invalid credentials."
    | none => none

/-- Embedding of the `register` action from auth-actions.ts (the
`name` argument only flows into the provider metadata and is omitted). -/
def registerAction (providerError : Option String) (email password : String) :
    Option String :=
  if !(isValidEmail email) then
    some "Invalid email format."
  else if !(isStrongPassword password) then
    some "Password must be at least 8 characters long and include an uppercase letter, a lowercase letter, a number, and a special character."
  else
    match providerError with
    | some _ => some "Registration failed."
    | none => none

/-! ## Data model of the external store -/

/-- A user as read back from the identity provider session:
the id together with the `is_admin` flag of the `user_metadata` map
(`none` models an absent flag, matching the optional field of the
permissive cast `{ is_admin?: boolean }`). -/
structure User where
  id : String
  is_admin : Option Bool
deriving Repr, DecidableEq

/-- The check `(user.user_metadata as { is_admin?: boolean }).is_admin === true`
used by getPollById and deletePoll. -/
def isAdminUser (u : User) : Bool :=
  u.is_admin == some true

/-- A row of the `polls` table. -/
structure Poll where
  id : String
  user_id : String
  question : String
  options : List String
  is_public : Bool
  created_at : Nat
deriving Repr, DecidableEq

/-- A row of the `votes` table. -/
structure Vote where
  id : String
  poll_id : String
  user_id : Option String
  option_index : Int
deriving Repr, DecidableEq

/-- The state of record held by the external data store. -/
structure Store where
  polls : List Poll
  votes : List Vote
deriving Repr, DecidableEq

/-- A data store error: a PostgREST-style code together with a message. -/
structure DbError where
  code : String
  message : String
deriving Repr, DecidableEq

/-- Modelled from the spec: the store contract of §6 requires a specific
no-rows code (`PGRST116`) distinguishable from other failures for
`single()` row fetches; a fetch matching several rows fails with a
distinct code. -/
def singleRow {α : Type} (rows : List α) : Except DbError α :=
  match rows with
  | [a] => Except.ok a
  | [] => Except.error
      { code := "PGRST116"
        message := "JSON object requested, multiple (or no) rows returned" }
  | _ => Except.error
      { code := "PGRST_MULTIPLE", message := "more than one row returned" }

/-- Result of `supabase.auth.getUser()` as destructured by createPoll
and updatePoll: the session user (if any) and `userError`. -/
structure AuthGetUser where
  user : Option User
  error : Option String
deriving Repr, DecidableEq

/-- The `{ error }` result object shared by createPoll, updatePoll,
deletePoll and submitVote. -/
structure ActionResult where
  error : Option String
deriving Repr, DecidableEq

/-- The `{ polls, error }` result object of getUserPolls. -/
structure PollListResult where
  polls : List Poll
  error : Option String
deriving Repr, DecidableEq

/-- The `{ poll, error }` result object of getPollById. -/
structure PollFetchResult where
  poll : Option Poll
  error : Option String
deriving Repr, DecidableEq

/-! ## Poll Policy Module -/

/-- Option extraction `formData.getAll("options").filter(Boolean)`:
`Boolean` is falsy exactly on the empty string. -/
def extractOptions (options0 : List String) : List String :=
  options0.filter (fun o => !(o == ""))

def MAX_QUESTION_LENGTH : Nat := 255

def MAX_OPTION_LENGTH : Nat := 100

def MAX_OPTIONS_COUNT : Nat := 10

/-- The sanitize-then-validate prefix shared verbatim by createPoll and
updatePoll: sanitizes the question and the extracted options, then runs
the four validation checks in source order, returning the error message
of the first failing check. -/
def validatePollInput (sanitize : String → String) (question0 : String)
    (options0 : List String) : Option String :=
  let question := sanitize question0
  let options := (extractOptions options0).map sanitize
  if question = "" ∨ options.length < 2 then
    some "Please provide a question and at least two options."
  else if MAX_QUESTION_LENGTH < question.length then
    some "Question exceeds maximum length of 255 characters."
  else if MAX_OPTIONS_COUNT < options.length then
    some "A poll cannot have more than 10 options."
  else if ∃ o ∈ options, MAX_OPTION_LENGTH < o.length then
    some "One or more options exceed maximum length of 100 characters."
  else
    none

/-- Embedding of `createPoll`: sanitize and validate, then check the
session (`userError` first, then a missing user), then insert a row
owned by the caller.  `dbError` injects the store's reported outcome of
the insert; `newPollId` and `now` stand for the store-generated id and
creation timestamp (`is_public` takes the column default `false`). -/
def createPoll (sanitize : String → String) (auth : AuthGetUser)
    (dbError : Option String) (store : Store) (newPollId : String) (now : Nat)
    (question0 : String) (options0 : List String) : ActionResult × Store :=
  let question := sanitize question0
  let options := (extractOptions options0).map sanitize
  match validatePollInput sanitize question0 options0 with
  | some msg => ({ error := some msg }, store)
  | none =>
    match auth.error with
    | some msg => ({ error := some msg }, store)
    | none =>
      match auth.user with
      | none => ({ error := some "You must be logged in to create a poll." }, store)
      | some user =>
        match dbError with
        | some msg => ({ error := some msg }, store)
        | none =>
            ({ error := none },
             { store with polls := store.polls ++
                 [{ id := newPollId, user_id := user.id, question := question,
                    options := options, is_public := false, created_at := now }] })

/-- Descending insertion by `created_at` (newest first). -/
def insertPollDesc (p : Poll) : List Poll → List Poll
  | [] => [p]
  | q :: qs =>
      if q.created_at ≤ p.created_at then p :: q :: qs
      else q :: insertPollDesc p qs

/-- Sort newest first, as `.order("created_at", { ascending: false })`. -/
def sortPollsNewestFirst : List Poll → List Poll
  | [] => []
  | p :: ps => insertPollDesc p (sortPollsNewestFirst ps)

/-- Embedding of `getUserPolls`: destructures only the session user;
without one it returns `{ polls: [], error: "Not authenticated" }`
before any store query, otherwise it selects the caller's polls newest
first (`dbError` injects the store's reported outcome of that select). -/
def getUserPolls (user : Option User) (dbError : Option String)
    (store : Store) : PollListResult :=
  match user with
  | none => { polls := [], error := some "Not authenticated" }
  | some u =>
    match dbError with
    | some msg => { polls := [], error := some msg }
    | none =>
        { polls := sortPollsNewestFirst
            (store.polls.filter (fun p => p.user_id == u.id))
          error := none }

/-- The filter predicate getPollById shapes onto its lookup query:
always `id = target`; with a non-admin session additionally
`or(user_id.eq.caller, is_public.eq.true)`; with an admin session no
further restriction; without a session additionally `is_public = true`. -/
def pollVisibleTo (currentUser : Option User) (p : Poll) : Bool :=
  match currentUser with
  | some u => if isAdminUser u then true else p.user_id == u.id || p.is_public
  | none => p.is_public

/-- Embedding of `getPollById`: a `single()` fetch over the shaped
filter; the store's error (in particular the no-rows error) is returned
as `{ poll: null, error: message }`. -/
def getPollById (currentUser : Option User) (store : Store) (id : String) :
    PollFetchResult :=
  match singleRow (store.polls.filter
      (fun p => p.id == id && pollVisibleTo currentUser p)) with
  | Except.ok p => { poll := some p, error := none }
  | Except.error e => { poll := none, error := some e.message }

/-- Injected upstream outcomes for submitVote: a failure of the
prior-vote existence check (replacing the store's own `single()`
outcome) and a failure of the insert. -/
structure VoteUpstream where
  checkError : Option DbError
  insertError : Option String
deriving Repr, DecidableEq

/-- The upstream with no injected failures: the existence check is
answered honestly by the store and the insert succeeds. -/
def honestVoteUpstream : VoteUpstream :=
  { checkError := none, insertError := none }

/-- Embedding of `submitVote`: anonymous voting is allowed; with a
session the module first runs the prior-vote existence check for
(pollId, caller id) — a `PGRST116` (no rows) outcome proceeds, any
other check failure is returned, an existing vote is rejected — and
then inserts the vote row with `user_id = caller id or null` and the
given `option_index`. -/
def submitVote (user : Option User) (up : VoteUpstream) (store : Store)
    (newVoteId : String) (pollId : String) (optionIndex : Int) :
    ActionResult × Store :=
  let insertVote : ActionResult × Store :=
    match up.insertError with
    | some msg => ({ error := some msg }, store)
    | none =>
        ({ error := none },
         { store with votes := store.votes ++
             [{ id := newVoteId, poll_id := pollId,
                user_id := user.map User.id, option_index := optionIndex }] })
  match user with
  | none => insertVote
  | some u =>
    let checkResult : Except DbError Vote :=
      match up.checkError with
      | some e => Except.error e
      | none => singleRow (store.votes.filter
          (fun v => v.poll_id == pollId && v.user_id == some u.id))
    match checkResult with
    | Except.error e =>
        if e.code != "PGRST116" then ({ error := some e.message }, store)
        else insertVote
    | Except.ok _ => ({ error := some "You have already voted on this poll." }, store)

/-- Embedding of `deletePoll`: requires a session; the delete is
filtered by `id = target`, and for non-admin callers additionally by
`user_id = caller`; `dbError` injects the store's reported outcome. -/
def deletePoll (currentUser : Option User) (dbError : Option String)
    (store : Store) (id : String) : ActionResult × Store :=
  match currentUser with
  | none => ({ error := some "You must be logged in to delete a poll." }, store)
  | some user =>
    match dbError with
    | some msg => ({ error := some msg }, store)
    | none =>
        ({ error := none },
         { store with polls := store.polls.filter (fun p =>
             !(p.id == id && (isAdminUser user || p.user_id == user.id))) })

/-- Embedding of `updatePoll`: the same sanitize-and-validate prefix as
createPoll, then the session check, then an update of `question` and
`options` filtered by `id = target AND user_id = caller` (no admin
override); `dbError` injects the store's reported outcome. -/
def updatePoll (sanitize : String → String) (auth : AuthGetUser)
    (dbError : Option String) (store : Store) (pollId : String)
    (question0 : String) (options0 : List String) : ActionResult × Store :=
  let question := sanitize question0
  let options := (extractOptions options0).map sanitize
  match validatePollInput sanitize question0 options0 with
  | some msg => ({ error := some msg }, store)
  | none =>
    match auth.error with
    | some msg => ({ error := some msg }, store)
    | none =>
      match auth.user with
      | none => ({ error := some "You must be logged in to update a poll." }, store)
      | some user =>
        match dbError with
        | some msg => ({ error := some msg }, store)
        | none =>
            ({ error := none },
             { store with polls := store.polls.map (fun p =>
                 if p.id == pollId && p.user_id == user.id then
                   { p with question := question, options := options }
                 else p) })

/-! ## Helper lemmas -/

/-- Filtering a duplicate-free list by a predicate satisfied by the
member `v` alone yields exactly `[v]`. -/
theorem filter_eq_singleton {α : Type} {l : List α} {p : α → Bool} {v : α}
    (hnd : l.Nodup) (hmem : v ∈ l) (hpv : p v = true)
    (huniq : ∀ w ∈ l, p w = true → w = v) : l.filter p = [v] := by
  induction l with
  | nil => cases hmem
  | cons a t ih =>
    rcases List.nodup_cons.mp hnd with ⟨hna, hnt⟩
    rcases List.mem_cons.mp hmem with h | h
    · subst h
      rw [List.filter_cons_of_pos hpv]
      have ht : t.filter p = [] := by
        rw [List.filter_eq_nil_iff]
        intro w hw hpw
        exact hna ((huniq w (List.mem_cons_of_mem _ hw) hpw) ▸ hw)
      rw [ht]
    · have hpa : ¬(p a = true) := fun hp =>
        hna ((huniq a (List.mem_cons_self a t) hp) ▸ h)
      rw [List.filter_cons_of_neg (by simpa using hpa)]
      exact ih hnt h (fun w hw hpw => huniq w (List.mem_cons_of_mem _ hw) hpw)

/-- Over a poll list with duplicate-free ids, the filter
`id = p.id AND q` returns `[p]` when `q p` holds and `[]` otherwise. -/
theorem filter_by_id {store : Store} {p : Poll}
    (hids : (store.polls.map Poll.id).Nodup) (hmem : p ∈ store.polls)
    (q : Poll → Bool) :
    store.polls.filter (fun x => x.id == p.id && q x) =
      (if q p then [p] else []) := by
  have hinj := List.inj_on_of_nodup_map hids
  by_cases hq : q p = true
  · rw [if_pos hq]
    refine filter_eq_singleton (List.Nodup.of_map _ hids) hmem ?_ ?_
    · simp [hq]
    · intro w hw hpw
      have hid : w.id = p.id := by simpa using (Bool.and_elim_left hpw)
      exact hinj hw hmem hid
  · rw [if_neg hq]
    rw [List.filter_eq_nil_iff]
    intro x hx
    simp only [Bool.and_eq_true, beq_iff_eq, not_and]
    intro hid
    have : x = p := hinj hx hmem hid
    subst this
    exact hq

/-! ## Claim theorems -/

/-- C1 (counterexample): with no authenticated session, `getUserPolls`
does not return a null error — already on the empty store the error
field is non-null. -/
theorem getUserPolls_unauth_null_error_cex :
    ¬((getUserPolls none none { polls := [], votes := [] }).error = none) := by
  decide

/-- C1 (amended): for every call to `getUserPolls` with no
authenticated session, the operation returns an empty poll list with
the error "Not authenticated". -/
theorem getUserPolls_unauthenticated (dbError : Option String) (store : Store) :
    getUserPolls none dbError store =
      { polls := [], error := some "Not authenticated" } := by
  rfl

/-- C5: any two `login` calls whose inputs pass format and strength
validation but whose provider reports a failure return the identical
generic error payload `some "Invalid credentials."`. -/
theorem login_provider_failures_indistinguishable
    (email₁ password₁ email₂ password₂ msg₁ msg₂ : String)
    (h₁e : isValidEmail email₁ = true) (h₁p : isStrongPassword password₁ = true)
    (h₂e : isValidEmail email₂ = true) (h₂p : isStrongPassword password₂ = true) :
    login (some msg₁) email₁ password₁ = login (some msg₂) email₂ password₂ ∧
    login (some msg₁) email₁ password₁ = some "Invalid credentials." := by
  simp [login, h₁e, h₁p, h₂e, h₂p]

/-- C5 (witness): a wrong password for an existing account and a
non-existent email produce byte-identical error payloads. -/
theorem login_provider_failures_indistinguishable_witness :
    login (some "Invalid login credentials") "alice@example.com" "Secret1!x" =
      login (some "User not found") "ghost@example.com" "Wrong1!aa" ∧
    login (some "Invalid login credentials") "alice@example.com" "Secret1!x" =
      some "Invalid credentials." :=
  login_provider_failures_indistinguishable
    "alice@example.com" "Secret1!x" "ghost@example.com" "Wrong1!aa"
    "Invalid login credentials" "User not found"
    (by decide) (by decide) (by decide) (by decide)

/-- C9: when the email fails the format regex (or, for login, the
password fails the strength check), `login` returns the generic
invalid-credentials error and `register` its email-format validation
error, and both results are independent of the identity provider's
behaviour (the provider is not consulted). -/
theorem auth_validation_precedes_provider (email password : String)
    (provider₁ provider₂ : Option String) :
    (isValidEmail email = false ∨ isStrongPassword password = false →
       login provider₁ email password = some "Invalid credentials." ∧
       login provider₁ email password = login provider₂ email password) ∧
    (isValidEmail email = false →
       registerAction provider₁ email password = some "Invalid email format." ∧
       registerAction provider₁ email password =
         registerAction provider₂ email password) := by
  constructor
  · intro h
    rcases h with h | h <;> simp [login, h]
  · intro h
    simp [registerAction, h]

/-- C9 (witness): a malformed email yields the documented errors from
both actions regardless of the provider outcome. -/
theorem auth_validation_precedes_provider_witness :
    (login (some "boom") "not-an-email" "Secret1!x" = some "Invalid credentials." ∧
     login (some "boom") "not-an-email" "Secret1!x" =
       login none "not-an-email" "Secret1!x") ∧
    (registerAction (some "boom") "not-an-email" "Secret1!x" =
       some "Invalid email format." ∧
     registerAction (some "boom") "not-an-email" "Secret1!x" =
       registerAction none "not-an-email" "Secret1!x") :=
  ⟨(auth_validation_precedes_provider "not-an-email" "Secret1!x"
      (some "boom") none).1 (Or.inl (by decide)),
   (auth_validation_precedes_provider "not-an-email" "Secret1!x"
      (some "boom") none).2 (by decide)⟩

/-- The outcome of `getPollById` over a store with duplicate-free poll
ids is decided by the shaped filter predicate on the target poll. -/
theorem getPollById_eq_visibility {store : Store} {p : Poll}
    (hids : (store.polls.map Poll.id).Nodup) (hmem : p ∈ store.polls)
    (caller : Option User) :
    getPollById caller store p.id =
      (if pollVisibleTo caller p then { poll := some p, error := none }
       else { poll := none,
              error := some "JSON object requested, multiple (or no) rows returned" }) := by
  unfold getPollById
  rw [filter_by_id hids hmem (pollVisibleTo caller)]
  by_cases h : pollVisibleTo caller p = true
  · rw [if_pos h, if_pos h]
    rfl
  · rw [if_neg h, if_neg h]
    rfl

/-- C3: for a private poll, `getPollById` returns the poll exactly to
its owner and to admins; anonymous callers and authenticated
non-owner non-admins get a not-found result; public polls are returned
to every caller class. -/
theorem getPollById_access_policy (store : Store) (p : Poll)
    (hids : (store.polls.map Poll.id).Nodup) (hmem : p ∈ store.polls) :
    (p.is_public = false →
       (getPollById none store p.id).poll = none ∧
       (∀ u : User, isAdminUser u = false → u.id ≠ p.user_id →
          (getPollById (some u) store p.id).poll = none) ∧
       (∀ u : User, isAdminUser u = false → u.id = p.user_id →
          (getPollById (some u) store p.id).poll = some p) ∧
       (∀ u : User, isAdminUser u = true →
          (getPollById (some u) store p.id).poll = some p)) ∧
    (p.is_public = true →
       ∀ caller : Option User, (getPollById caller store p.id).poll = some p) := by
  constructor
  · intro hpriv
    refine ⟨?_, ?_, ?_, ?_⟩
    · rw [getPollById_eq_visibility hids hmem none]
      simp [pollVisibleTo, hpriv]
    · intro u hadm hown
      rw [getPollById_eq_visibility hids hmem (some u)]
      have : p.user_id ≠ u.id := fun h => hown h.symm
      simp [pollVisibleTo, hadm, hpriv, this]
    · intro u hadm hown
      rw [getPollById_eq_visibility hids hmem (some u)]
      simp [pollVisibleTo, hadm, hown.symm]
    · intro u hadm
      rw [getPollById_eq_visibility hids hmem (some u)]
      simp [pollVisibleTo, hadm]
  · intro hpub caller
    rw [getPollById_eq_visibility hids hmem caller]
    cases caller with
    | none => simp [pollVisibleTo, hpub]
    | some u =>
      by_cases hadm : isAdminUser u = true <;> simp [pollVisibleTo, hadm, hpub]

/-- C3 (witness): the access matrix evaluated on a two-poll store. -/
theorem getPollById_access_policy_witness :
    ((Poll.mk "p1" "alice" "q" ["a", "b"] false 5).is_public = false →
       (getPollById none
          { polls := [Poll.mk "p1" "alice" "q" ["a", "b"] false 5,
                      Poll.mk "p2" "alice" "q2" ["a", "b"] true 6]
            votes := [] } "p1").poll = none ∧
       (∀ u : User, isAdminUser u = false →
          u.id ≠ (Poll.mk "p1" "alice" "q" ["a", "b"] false 5).user_id →
          (getPollById (some u)
             { polls := [Poll.mk "p1" "alice" "q" ["a", "b"] false 5,
                         Poll.mk "p2" "alice" "q2" ["a", "b"] true 6]
               votes := [] } "p1").poll = none) ∧
       (∀ u : User, isAdminUser u = false →
          u.id = (Poll.mk "p1" "alice" "q" ["a", "b"] false 5).user_id →
          (getPollById (some u)
             { polls := [Poll.mk "p1" "alice" "q" ["a", "b"] false 5,
                         Poll.mk "p2" "alice" "q2" ["a", "b"] true 6]
               votes := [] } "p1").poll =
            some (Poll.mk "p1" "alice" "q" ["a", "b"] false 5)) ∧
       (∀ u : User, isAdminUser u = true →
          (getPollById (some u)
             { polls := [Poll.mk "p1" "alice" "q" ["a", "b"] false 5,
                         Poll.mk "p2" "alice" "q2" ["a", "b"] true 6]
               votes := [] } "p1").poll =
            some (Poll.mk "p1" "alice" "q" ["a", "b"] false 5))) ∧
    ((Poll.mk "p1" "alice" "q" ["a", "b"] false 5).is_public = true →
       ∀ caller : Option User,
         (getPollById caller
            { polls := [Poll.mk "p1" "alice" "q" ["a", "b"] false 5,
                        Poll.mk "p2" "alice" "q2" ["a", "b"] true 6]
              votes := [] } "p1").poll =
           some (Poll.mk "p1" "alice" "q" ["a", "b"] false 5)) :=
  getPollById_access_policy
    { polls := [Poll.mk "p1" "alice" "q" ["a", "b"] false 5,
                Poll.mk "p2" "alice" "q2" ["a", "b"] true 6]
      votes := [] }
    (Poll.mk "p1" "alice" "q" ["a", "b"] false 5)
    (by decide) (by decide)

/-- C4: `deletePoll` by an authenticated non-admin on another user's
poll deletes nothing and returns a null error, while the owner or any
admin deleting the same poll removes it from the store. -/
theorem deletePoll_scoping (store : Store) (p : Poll)
    (hids : (store.polls.map Poll.id).Nodup) (hmem : p ∈ store.polls) :
    (∀ caller : User, isAdminUser caller = false → caller.id ≠ p.user_id →
       deletePoll (some caller) none store p.id = ({ error := none }, store)) ∧
    (∀ caller : User, caller.id = p.user_id →
       (deletePoll (some caller) none store p.id).1.error = none ∧
       p ∉ (deletePoll (some caller) none store p.id).2.polls) ∧
    (∀ caller : User, isAdminUser caller = true →
       (deletePoll (some caller) none store p.id).1.error = none ∧
       p ∉ (deletePoll (some caller) none store p.id).2.polls) := by
  have hinj := List.inj_on_of_nodup_map hids
  have hd : ∀ caller : User, deletePoll (some caller) none store p.id =
      ({ error := none },
       { store with polls := store.polls.filter (fun q =>
           !(q.id == p.id && (isAdminUser caller || q.user_id == caller.id))) }) :=
    fun _ => rfl
  refine ⟨?_, ?_, ?_⟩
  · intro caller hadm hown
    rw [hd caller]
    have hfix : store.polls.filter (fun q =>
        !(q.id == p.id && (isAdminUser caller || q.user_id == caller.id))) =
        store.polls := by
      rw [List.filter_eq_self]
      intro x hx
      simp only [hadm, Bool.false_or, Bool.not_eq_true', Bool.and_eq_false_iff]
      by_cases hid : x.id = p.id
      · have hxp : x = p := hinj hx hmem hid
        subst hxp
        right
        simp only [beq_eq_false_iff_ne, ne_eq]
        exact fun h => hown h.symm
      · left
        simpa using hid
    rw [hfix]
  · intro caller hown
    rw [hd caller]
    refine ⟨rfl, ?_⟩
    simp [List.mem_filter, hown.symm]
  · intro caller hadm
    rw [hd caller]
    refine ⟨rfl, ?_⟩
    simp [List.mem_filter, hadm]

/-- C4 (witness): scoped deletion evaluated on a one-poll store for a
non-admin stranger, the owner, and an admin. -/
theorem deletePoll_scoping_witness :
    (∀ caller : User, isAdminUser caller = false →
       caller.id ≠ (Poll.mk "p1" "alice" "q" ["a", "b"] false 5).user_id →
       deletePoll (some caller) none
         { polls := [Poll.mk "p1" "alice" "q" ["a", "b"] false 5], votes := [] }
         "p1" =
       ({ error := none },
        { polls := [Poll.mk "p1" "alice" "q" ["a", "b"] false 5], votes := [] })) ∧
    (∀ caller : User, caller.id = (Poll.mk "p1" "alice" "q" ["a", "b"] false 5).user_id →
       (deletePoll (some caller) none
          { polls := [Poll.mk "p1" "alice" "q" ["a", "b"] false 5], votes := [] }
          "p1").1.error = none ∧
       (Poll.mk "p1" "alice" "q" ["a", "b"] false 5) ∉
         (deletePoll (some caller) none
            { polls := [Poll.mk "p1" "alice" "q" ["a", "b"] false 5], votes := [] }
            "p1").2.polls) ∧
    (∀ caller : User, isAdminUser caller = true →
       (deletePoll (some caller) none
          { polls := [Poll.mk "p1" "alice" "q" ["a", "b"] false 5], votes := [] }
          "p1").1.error = none ∧
       (Poll.mk "p1" "alice" "q" ["a", "b"] false 5) ∉
         (deletePoll (some caller) none
            { polls := [Poll.mk "p1" "alice" "q" ["a", "b"] false 5], votes := [] }
            "p1").2.polls) :=
  deletePoll_scoping
    { polls := [Poll.mk "p1" "alice" "q" ["a", "b"] false 5], votes := [] }
    (Poll.mk "p1" "alice" "q" ["a", "b"] false 5)
    (by decide) (by decide)

/-- C2: `updatePoll` invoked by an admin with valid input returns no
error but leaves every poll not owned by the admin unchanged: the
update filter is `id = target AND owner = caller` with no admin
override. -/
theorem updatePoll_no_admin_override (sanitize : String → String) (caller : User)
    (store : Store) (pollId question0 : String) (options0 : List String)
    (_hadmin : isAdminUser caller = true)
    (hvalid : validatePollInput sanitize question0 options0 = none) :
    (updatePoll sanitize { user := some caller, error := none } none store
        pollId question0 options0).1.error = none ∧
    (updatePoll sanitize { user := some caller, error := none } none store
        pollId question0 options0).2.polls.length = store.polls.length ∧
    ∀ i : Nat, ∀ p : Poll, store.polls[i]? = some p → p.user_id ≠ caller.id →
      (updatePoll sanitize { user := some caller, error := none } none store
          pollId question0 options0).2.polls[i]? = some p := by
  have hu : updatePoll sanitize { user := some caller, error := none } none store
      pollId question0 options0 =
      ({ error := none },
       { store with polls := store.polls.map (fun p =>
           if p.id == pollId && p.user_id == caller.id then
             { p with question := sanitize question0,
                      options := (extractOptions options0).map sanitize }
           else p) }) := by
    simp only [updatePoll, hvalid]
  rw [hu]
  refine ⟨rfl, by simp, ?_⟩
  intro i p hget hown
  simp only [List.getElem?_map, hget, Option.map_some']
  have hbeq : (p.user_id == caller.id) = false := by
    simpa using hown
  simp [hbeq]

/-- C2 (witness): an admin updating a poll owned by someone else with
valid input gets a null error and the poll is untouched. -/
theorem updatePoll_no_admin_override_witness :
    (updatePoll (fun s => s)
        { user := some (User.mk "root" (some true)), error := none } none
        { polls := [Poll.mk "p1" "alice" "q" ["a", "b"] false 5], votes := [] }
        "p1" "newq" ["x", "y"]).1.error = none ∧
    (updatePoll (fun s => s)
        { user := some (User.mk "root" (some true)), error := none } none
        { polls := [Poll.mk "p1" "alice" "q" ["a", "b"] false 5], votes := [] }
        "p1" "newq" ["x", "y"]).2.polls.length =
      (Store.mk [Poll.mk "p1" "alice" "q" ["a", "b"] false 5] []).polls.length ∧
    ∀ i : Nat, ∀ p : Poll,
      (Store.mk [Poll.mk "p1" "alice" "q" ["a", "b"] false 5] []).polls[i]? = some p →
      p.user_id ≠ (User.mk "root" (some true)).id →
      (updatePoll (fun s => s)
          { user := some (User.mk "root" (some true)), error := none } none
          { polls := [Poll.mk "p1" "alice" "q" ["a", "b"] false 5], votes := [] }
          "p1" "newq" ["x", "y"]).2.polls[i]? = some p :=
  updatePoll_no_admin_override (fun s => s) (User.mk "root" (some true))
    (Store.mk [Poll.mk "p1" "alice" "q" ["a", "b"] false 5] [])
    "p1" "newq" ["x", "y"] (by decide) (by decide)

/-- C6: an authenticated user with a recorded vote on a poll receives
the duplicate-vote error and no insert happens; an anonymous caller is
never rejected for duplication; a no-rows existence-check outcome lets
the vote proceed; any other existence-check failure is returned without
inserting. -/
theorem submitVote_duplicate_policy (store store₂ : Store) (u : User)
    (pollId newVoteId : String) (optionIndex : Int) (v : Vote) (e : DbError)
    (hmem : v ∈ store.votes) (hvp : v.poll_id = pollId)
    (hvu : v.user_id = some u.id) (hnd : store.votes.Nodup)
    (huniq : ∀ w ∈ store.votes, w.poll_id = pollId → w.user_id = some u.id → w = v)
    (hnone : store₂.votes.filter
        (fun w => w.poll_id == pollId && w.user_id == some u.id) = [])
    (hcode : e.code ≠ "PGRST116") :
    (submitVote (some u) honestVoteUpstream store newVoteId pollId optionIndex =
       ({ error := some "You have already voted on this poll." }, store)) ∧
    (submitVote none honestVoteUpstream store newVoteId pollId optionIndex =
       ({ error := none },
        { store with votes := store.votes ++
            [{ id := newVoteId, poll_id := pollId, user_id := none,
               option_index := optionIndex }] })) ∧
    (submitVote (some u) honestVoteUpstream store₂ newVoteId pollId optionIndex =
       ({ error := none },
        { store₂ with votes := store₂.votes ++
            [{ id := newVoteId, poll_id := pollId, user_id := some u.id,
               option_index := optionIndex }] })) ∧
    (submitVote (some u) { checkError := some e, insertError := none } store
        newVoteId pollId optionIndex = ({ error := some e.message }, store)) := by
  have hfilter : store.votes.filter
      (fun w => w.poll_id == pollId && w.user_id == some u.id) = [v] := by
    refine filter_eq_singleton hnd hmem ?_ ?_
    · simp [hvp, hvu]
    · intro w hw hpw
      simp only [Bool.and_eq_true, beq_iff_eq] at hpw
      exact huniq w hw hpw.1 hpw.2
  refine ⟨?_, rfl, ?_, ?_⟩
  · simp [submitVote, honestVoteUpstream, hfilter, singleRow]
  · simp [submitVote, honestVoteUpstream, hnone, singleRow]
  · simp [submitVote, bne_iff_ne.mpr hcode]

/-- C6 (witness): the four submitVote outcomes evaluated on concrete
stores: a second authenticated vote is rejected, an anonymous vote and
a first authenticated vote are inserted, and a non-no-rows check
failure is surfaced. -/
theorem submitVote_duplicate_policy_witness :
    (submitVote (some (User.mk "bob" none)) honestVoteUpstream
       { polls := [], votes := [Vote.mk "v1" "p1" (some "bob") 0] } "v9" "p1" 3 =
       ({ error := some "You have already voted on this poll." },
        { polls := [], votes := [Vote.mk "v1" "p1" (some "bob") 0] })) ∧
    (submitVote none honestVoteUpstream
       { polls := [], votes := [Vote.mk "v1" "p1" (some "bob") 0] } "v9" "p1" 3 =
       ({ error := none },
        { polls := []
          votes := [Vote.mk "v1" "p1" (some "bob") 0] ++
            [{ id := "v9", poll_id := "p1", user_id := none, option_index := 3 }] })) ∧
    (submitVote (some (User.mk "bob" none)) honestVoteUpstream
       { polls := [], votes := [] } "v9" "p1" 3 =
       ({ error := none },
        { polls := []
          votes := [] ++
            [{ id := "v9", poll_id := "p1", user_id := some "bob",
               option_index := 3 }] })) ∧
    (submitVote (some (User.mk "bob" none))
       { checkError := some (DbError.mk "500" "connection reset"), insertError := none }
       { polls := [], votes := [Vote.mk "v1" "p1" (some "bob") 0] } "v9" "p1" 3 =
       ({ error := some "connection reset" },
        { polls := [], votes := [Vote.mk "v1" "p1" (some "bob") 0] })) :=
  submitVote_duplicate_policy
    { polls := [], votes := [Vote.mk "v1" "p1" (some "bob") 0] }
    { polls := [], votes := [] }
    (User.mk "bob" none) "p1" "v9" 3
    (Vote.mk "v1" "p1" (some "bob") 0) (DbError.mk "500" "connection reset")
    (by decide) (by decide) (by decide) (by decide) (by decide) (by decide)
    (by decide)

/-- C7: submitVote never validates `optionIndex` against the poll's
option bounds: the returned error is independent of the index, and a
successful submission inserts the vote row carrying exactly the given
index, whatever integer it is. -/
theorem submitVote_no_option_bounds (user : Option User) (up : VoteUpstream)
    (store : Store) (newVoteId pollId : String)
    (optionIndex optionIndex' : Int) (u : User) :
    ((submitVote user up store newVoteId pollId optionIndex).1 =
       (submitVote user up store newVoteId pollId optionIndex').1) ∧
    (submitVote none honestVoteUpstream store newVoteId pollId optionIndex =
       ({ error := none },
        { store with votes := store.votes ++
            [{ id := newVoteId, poll_id := pollId, user_id := none,
               option_index := optionIndex }] })) ∧
    (store.votes.filter (fun w => w.poll_id == pollId && w.user_id == some u.id) = [] →
       submitVote (some u) honestVoteUpstream store newVoteId pollId optionIndex =
         ({ error := none },
          { store with votes := store.votes ++
              [{ id := newVoteId, poll_id := pollId, user_id := some u.id,
                 option_index := optionIndex }] })) := by
  refine ⟨?_, rfl, ?_⟩
  · cases user with
    | none =>
      cases hi : up.insertError <;> simp [submitVote, hi]
    | some w =>
      cases hc : up.checkError with
      | some e =>
        by_cases hcode : e.code = "PGRST116"
        · cases hi : up.insertError <;> simp [submitVote, hc, hi, hcode]
        · simp [submitVote, hc, bne_iff_ne.mpr hcode]
      | none =>
        cases hs : singleRow (store.votes.filter
            (fun v => v.poll_id == pollId && v.user_id == some w.id)) with
        | error e =>
          by_cases hcode : e.code = "PGRST116"
          · cases hi : up.insertError <;> simp [submitVote, hc, hs, hi, hcode]
          · simp [submitVote, hc, hs, bne_iff_ne.mpr hcode]
        | ok v => simp [submitVote, hc, hs]
  · intro h
    simp [submitVote, honestVoteUpstream, h, singleRow]

/-- C7 (witness): an out-of-bounds index 99 on a two-option poll is
inserted unchanged for a first-time authenticated voter. -/
theorem submitVote_no_option_bounds_witness :
    submitVote (some (User.mk "bob" none)) honestVoteUpstream
      { polls := [Poll.mk "p1" "alice" "q" ["a", "b"] true 5], votes := [] }
      "v9" "p1" 99 =
      ({ error := none },
       { polls := [Poll.mk "p1" "alice" "q" ["a", "b"] true 5]
         votes := [] ++
           [{ id := "v9", poll_id := "p1", user_id := some "bob",
              option_index := 99 }] }) :=
  (submitVote_no_option_bounds (some (User.mk "bob" none)) honestVoteUpstream
    { polls := [Poll.mk "p1" "alice" "q" ["a", "b"] true 5], votes := [] }
    "v9" "p1" 99 0 (User.mk "bob" none)).2.2 (by decide)

/-- Every error produced by the shared poll-input validation is one of
its four fixed messages. -/
theorem validatePollInput_messages (sanitize : String → String)
    (question0 : String) (options0 : List String) (msg : String)
    (h : validatePollInput sanitize question0 options0 = some msg) :
    msg = "Please provide a question and at least two options." ∨
    msg = "Question exceeds maximum length of 255 characters." ∨
    msg = "A poll cannot have more than 10 options." ∨
    msg = "One or more options exceed maximum length of 100 characters." := by
  simp only [validatePollInput] at h
  split_ifs at h <;> simp_all

/-- C8: the shared createPoll/updatePoll validation accepts exactly the
inputs whose sanitized question is non-empty and at most 255 characters
with 2 to 10 options each at most 100 characters, rejects each
violation with its distinct message in source order, and a validation
failure makes both createPoll and updatePoll return that message with
the store unchanged. -/
theorem pollValidation_rules (sanitize : String → String) (question0 : String)
    (options0 : List String) :
    (validatePollInput sanitize question0 options0 = none ↔
       (sanitize question0 ≠ "" ∧
        2 ≤ ((extractOptions options0).map sanitize).length ∧
        (sanitize question0).length ≤ MAX_QUESTION_LENGTH ∧
        ((extractOptions options0).map sanitize).length ≤ MAX_OPTIONS_COUNT ∧
        ∀ o ∈ (extractOptions options0).map sanitize,
          o.length ≤ MAX_OPTION_LENGTH)) ∧
    (sanitize question0 = "" ∨ ((extractOptions options0).map sanitize).length < 2 →
       validatePollInput sanitize question0 options0 =
         some "Please provide a question and at least two options.") ∧
    (sanitize question0 ≠ "" →
     2 ≤ ((extractOptions options0).map sanitize).length →
     MAX_QUESTION_LENGTH < (sanitize question0).length →
       validatePollInput sanitize question0 options0 =
         some "Question exceeds maximum length of 255 characters.") ∧
    (sanitize question0 ≠ "" →
     2 ≤ ((extractOptions options0).map sanitize).length →
     (sanitize question0).length ≤ MAX_QUESTION_LENGTH →
     MAX_OPTIONS_COUNT < ((extractOptions options0).map sanitize).length →
       validatePollInput sanitize question0 options0 =
         some "A poll cannot have more than 10 options.") ∧
    (sanitize question0 ≠ "" →
     2 ≤ ((extractOptions options0).map sanitize).length →
     (sanitize question0).length ≤ MAX_QUESTION_LENGTH →
     ((extractOptions options0).map sanitize).length ≤ MAX_OPTIONS_COUNT →
     (∃ o ∈ (extractOptions options0).map sanitize, MAX_OPTION_LENGTH < o.length) →
       validatePollInput sanitize question0 options0 =
         some "One or more options exceed maximum length of 100 characters.") ∧
    (∀ msg, validatePollInput sanitize question0 options0 = some msg →
       ∀ (auth : AuthGetUser) (dbError : Option String) (store : Store)
         (newPollId : String) (now : Nat) (pollId : String),
         createPoll sanitize auth dbError store newPollId now question0 options0 =
           ({ error := some msg }, store) ∧
         updatePoll sanitize auth dbError store pollId question0 options0 =
           ({ error := some msg }, store)) := by
  refine ⟨?_, ?_, ?_, ?_, ?_, ?_⟩
  · constructor
    · intro h
      simp only [validatePollInput] at h
      split_ifs at h with h1 h2 h3 h4
      push_neg at h1 h2 h3 h4
      exact ⟨h1.1, h1.2, h2, h3, h4⟩
    · rintro ⟨hq, hlen, hqlen, hcount, hopt⟩
      have hn1 : ¬(sanitize question0 = "" ∨
          ((extractOptions options0).map sanitize).length < 2) := by
        push_neg
        exact ⟨hq, hlen⟩
      have hn4 : ¬∃ o ∈ (extractOptions options0).map sanitize,
          MAX_OPTION_LENGTH < o.length := by
        push_neg
        exact hopt
      simp only [validatePollInput, if_neg hn1, if_neg (not_lt.mpr hqlen),
        if_neg (not_lt.mpr hcount), if_neg hn4]
  · intro h
    simp only [validatePollInput, if_pos h]
  · intro h1 h2 h3
    have hn1 : ¬(sanitize question0 = "" ∨
        ((extractOptions options0).map sanitize).length < 2) := by
      push_neg
      exact ⟨h1, h2⟩
    simp only [validatePollInput, if_neg hn1, if_pos h3]
  · intro h1 h2 h3 h4
    have hn1 : ¬(sanitize question0 = "" ∨
        ((extractOptions options0).map sanitize).length < 2) := by
      push_neg
      exact ⟨h1, h2⟩
    simp only [validatePollInput, if_neg hn1, if_neg (not_lt.mpr h3), if_pos h4]
  · intro h1 h2 h3 h4 h5
    have hn1 : ¬(sanitize question0 = "" ∨
        ((extractOptions options0).map sanitize).length < 2) := by
      push_neg
      exact ⟨h1, h2⟩
    simp only [validatePollInput, if_neg hn1, if_neg (not_lt.mpr h3),
      if_neg (not_lt.mpr h4), if_pos h5]
  · intro msg h auth dbError store newPollId now pollId
    constructor
    · simp [createPoll, h]
    · simp [updatePoll, h]

/-- C8 (witness): a 255-character question and a 10th option are
accepted; a 256-character question, an 11th option, an empty question,
a single option and a 101-character option are rejected with their
distinct messages, and createPoll propagates the rejection verbatim. -/
theorem pollValidation_rules_witness :
    validatePollInput (fun s => s) (String.mk (List.replicate 255 'a')) ["x", "y"] =
      none ∧
    validatePollInput (fun s => s) (String.mk (List.replicate 256 'a')) ["x", "y"] =
      some "Question exceeds maximum length of 255 characters." ∧
    validatePollInput (fun s => s) "q" (List.replicate 10 "o") = none ∧
    validatePollInput (fun s => s) "q" (List.replicate 11 "o") =
      some "A poll cannot have more than 10 options." ∧
    validatePollInput (fun s => s) "" ["x", "y"] =
      some "Please provide a question and at least two options." ∧
    validatePollInput (fun s => s) "q" ["x"] =
      some "Please provide a question and at least two options." ∧
    validatePollInput (fun s => s) "q" ["x", String.mk (List.replicate 101 'b')] =
      some "One or more options exceed maximum length of 100 characters." ∧
    createPoll (fun s => s) { user := none, error := none } none
        { polls := [], votes := [] } "n" 0 "" ["x", "y"] =
      ({ error := some "Please provide a question and at least two options." },
       { polls := [], votes := [] }) := by
  refine ⟨?_, ?_, ?_, ?_, ?_, ?_, ?_, ?_⟩
  · exact (pollValidation_rules (fun s => s)
      (String.mk (List.replicate 255 'a')) ["x", "y"]).1.mpr (by decide)
  · exact (pollValidation_rules (fun s => s)
      (String.mk (List.replicate 256 'a')) ["x", "y"]).2.2.1
      (by decide) (by decide) (by decide)
  · exact (pollValidation_rules (fun s => s) "q" (List.replicate 10 "o")).1.mpr
      (by decide)
  · exact (pollValidation_rules (fun s => s) "q" (List.replicate 11 "o")).2.2.2.1
      (by decide) (by decide) (by decide) (by decide)
  · exact (pollValidation_rules (fun s => s) "" ["x", "y"]).2.1
      (Or.inl (by decide))
  · exact (pollValidation_rules (fun s => s) "q" ["x"]).2.1
      (Or.inr (by decide))
  · exact (pollValidation_rules (fun s => s) "q"
      ["x", String.mk (List.replicate 101 'b')]).2.2.2.2.1
      (by decide) (by decide) (by decide) (by decide) (by decide)
  · exact ((pollValidation_rules (fun s => s) "" ["x", "y"]).2.2.2.2.2
      "Please provide a question and at least two options." (by decide)
      { user := none, error := none } none { polls := [], votes := [] }
      "n" 0 "unused").1

/-- C10: in createPoll and updatePoll all sanitization and validation
checks run before the authentication check: a validation failure is
returned even when no session exists (for any provider outcome), and
with an error-free provider and store the "must be logged in" error is
returned exactly for unauthenticated calls whose input passes every
validation check. -/
theorem pollActions_validation_before_auth (sanitize : String → String)
    (auth : AuthGetUser) (dbError : Option String) (store : Store)
    (newPollId : String) (now : Nat) (pollId : String)
    (question0 : String) (options0 : List String) :
    (∀ msg, validatePollInput sanitize question0 options0 = some msg →
       (createPoll sanitize auth dbError store newPollId now question0
           options0).1.error = some msg ∧
       (updatePoll sanitize auth dbError store pollId question0
           options0).1.error = some msg) ∧
    (auth.error = none → dbError = none →
       ((createPoll sanitize auth dbError store newPollId now question0
            options0).1.error = some "You must be logged in to create a poll." ↔
          validatePollInput sanitize question0 options0 = none ∧
          auth.user = none) ∧
       ((updatePoll sanitize auth dbError store pollId question0
            options0).1.error = some "You must be logged in to update a poll." ↔
          validatePollInput sanitize question0 options0 = none ∧
          auth.user = none)) := by
  constructor
  · intro msg h
    constructor
    · simp [createPoll, h]
    · simp [updatePoll, h]
  · intro hae hdb
    constructor
    · constructor
      · intro h
        cases hv : validatePollInput sanitize question0 options0 with
        | some m =>
          simp only [createPoll, hv] at h
          rcases validatePollInput_messages sanitize question0 options0 m hv with
            h4 | h4 | h4 | h4 <;> simp [h4] at h
        | none =>
          cases hu : auth.user with
          | some u => simp [createPoll, hv, hae, hu, hdb] at h
          | none => exact ⟨rfl, rfl⟩
      · rintro ⟨hv, hu⟩
        simp [createPoll, hv, hae, hu]
    · constructor
      · intro h
        cases hv : validatePollInput sanitize question0 options0 with
        | some m =>
          simp only [updatePoll, hv] at h
          rcases validatePollInput_messages sanitize question0 options0 m hv with
            h4 | h4 | h4 | h4 <;> simp [h4] at h
        | none =>
          cases hu : auth.user with
          | some u => simp [updatePoll, hv, hae, hu, hdb] at h
          | none => exact ⟨rfl, rfl⟩
      · rintro ⟨hv, hu⟩
        simp [updatePoll, hv, hae, hu]

/-- C10 (witness): an unauthenticated call with an invalid question
gets the validation message, and the same call with valid input gets
the must-be-logged-in messages. -/
theorem pollActions_validation_before_auth_witness :
    (createPoll (fun s => s) { user := none, error := none } none
        { polls := [], votes := [] } "n" 0 "" ["x", "y"]).1.error =
      some "Please provide a question and at least two options." ∧
    (createPoll (fun s => s) { user := none, error := none } none
        { polls := [], votes := [] } "n" 0 "q" ["x", "y"]).1.error =
      some "You must be logged in to create a poll." ∧
    (updatePoll (fun s => s) { user := none, error := none } none
        { polls := [], votes := [] } "p" "q" ["x", "y"]).1.error =
      some "You must be logged in to update a poll." := by
  have h1 := pollActions_validation_before_auth (fun s => s)
    { user := none, error := none } none { polls := [], votes := [] }
    "n" 0 "p" "" ["x", "y"]
  have h2 := pollActions_validation_before_auth (fun s => s)
    { user := none, error := none } none { polls := [], votes := [] }
    "n" 0 "p" "q" ["x", "y"]
  exact ⟨(h1.1 "Please provide a question and at least two options." (by decide)).1,
    ((h2.2 rfl rfl).1).mpr ⟨by decide, rfl⟩,
    ((h2.2 rfl rfl).2).mpr ⟨by decide, rfl⟩⟩

end AlxPolly
